import Mathlib

/-
Verification of the todo CRUD core of golang-todo-api.

Shallow embedding of:
  internal/todos/dto.go        (request payloads),
  the Todo entity (gorm model with a DeletedAt soft-delete marker and a
  partial unique index on title scoped to non-deleted rows),
  internal/todos/repository.go (GORM-backed store; GORM soft-delete
  semantics are modelled explicitly: every read carries an implicit
  "deleted_at IS NULL" scope, Delete sets deleted_at, Save refreshes
  updated_at),
  internal/todos/service.go    (business rules),
  internal/todos/handlers.go   (gin handlers; transport binding and
  error-to-status mapping).

Go errors are modelled as an inductive type; fmt.Errorf wrapping with the
percent-w verb becomes an explicit wrap constructor.  Timestamps are a
logical clock carried by the database state.  Stateful repository and
service methods thread the database state explicitly; the service and the
handlers are parametrised over the repository and service interfaces they
are written against, exactly as in the Go source.
-/

/-- Go error values relevant to the todo core: the three sentinel errors of
service.go, opaque storage or driver errors, and fmt.Errorf wrapping. -/
inductive GoErr where
  | titleRequired : GoErr
  | titleExists : GoErr
  | notFound : GoErr
  | other : String → GoErr
  | wrap : String → GoErr → GoErr
deriving Repr, DecidableEq

/-- Error text, as produced by the Error method of each Go error value.
The sentinel texts are the literals from service.go; wrapping mirrors
fmt.Errorf with a colon separator. -/
def GoErr.message : GoErr → String
  | .titleRequired => "title is required"
  | .titleExists => "todo with this title already exists"
  | .notFound => "todo not found"
  | .other m => m
  | .wrap m e => m ++ ": " ++ e.message

/-- The Todo entity (entity.go): gorm model with soft-delete marker.
Timestamps are natural numbers (a logical clock); deletedAt is none for an
active row, mirroring a NULL deleted_at column. -/
structure Todo where
  id : Nat
  title : String
  description : String
  completed : Bool
  createdAt : Nat
  updatedAt : Nat
  deletedAt : Option Nat
deriving Repr, DecidableEq

/-- CreateTodoRequest from dto.go: title carries a required binding tag,
description is optional. -/
structure CreateTodoRequest where
  title : String
  description : String
deriving Repr, DecidableEq

/-- UpdateTodoRequest from dto.go: title and description are plain strings
whose zero value means absent; completed is a tri-state pointer. -/
structure UpdateTodoRequest where
  title : String
  description : String
  completed : Option Bool
deriving Repr, DecidableEq

/-- A row is active when its deleted_at column is NULL. -/
def isActive (t : Todo) : Bool := t.deletedAt.isNone

/-- Database state behind the GORM connection: the todos table, the next
auto-increment primary key, and the current time of the logical clock. -/
structure DB where
  rows : List Todo
  nextId : Nat
  now : Nat
deriving Repr, DecidableEq

/-- The rows visible through the GORM default scope of a soft-delete
model: deleted rows are filtered out of every query. -/
def DB.activeRows (db : DB) : List Todo := db.rows.filter isActive

/-- TodoRepository interface from repository.go, over an explicit store
state.  Create and Update return the persisted Todo: in Go they mutate the
struct behind the pointer (GORM assigns id and timestamps on Create and
refreshes UpdatedAt on Save), which the service then returns. -/
structure TodoRepository (σ : Type) where
  create : Todo → σ → Except GoErr Todo × σ
  getAll : σ → Except GoErr (List Todo) × σ
  getByID : Nat → σ → Except GoErr Todo × σ
  existsByTitle : String → σ → Except GoErr Bool × σ
  update : Todo → σ → Except GoErr Todo × σ
  delete : Nat → σ → Option GoErr × σ

/-- repository.Create via gorm db.Create: the partial unique index on
title (scoped to deleted_at IS NULL, from the entity tag) rejects a title
held by an active row with a constraint error; otherwise the row is
inserted with a fresh id and both timestamps set to the current time. -/
def gormCreate (todo : Todo) (db : DB) : Except GoErr Todo × DB :=
  if db.activeRows.any (fun r => r.title == todo.title) then
    (.error (.other "UNIQUE constraint failed: idx_todos_title_not_deleted"), db)
  else
    let t : Todo :=
      { todo with id := db.nextId, createdAt := db.now, updatedAt := db.now,
                  deletedAt := none }
    (.ok t, { db with rows := db.rows ++ [t], nextId := db.nextId + 1 })

/-- repository.GetAll via db.Find: all rows under the soft-delete scope. -/
def gormGetAll (db : DB) : Except GoErr (List Todo) × DB :=
  (.ok db.activeRows, db)

/-- repository.GetByID via db.First under the soft-delete scope;
gorm.ErrRecordNotFound is translated to ErrNotFound by repository.go. -/
def gormGetByID (id : Nat) (db : DB) : Except GoErr Todo × DB :=
  match db.activeRows.find? (fun r => r.id == id) with
  | some t => (.ok t, db)
  | none => (.error .notFound, db)

/-- repository.ExistsByTitle: a select-id limit-1 probe among active rows;
a missing row is reported as false with no error. -/
def gormExistsByTitle (title : String) (db : DB) : Except GoErr Bool × DB :=
  (.ok (db.activeRows.any (fun r => r.title == title)), db)

/-- repository.Update via db.Save: writes all fields of the loaded row
(matched by primary key, under the soft-delete scope) and refreshes
updated_at to the current time, also on the struct that was passed in. -/
def gormUpdate (todo : Todo) (db : DB) : Except GoErr Todo × DB :=
  let t : Todo := { todo with updatedAt := db.now }
  (.ok t,
   { db with rows := db.rows.map (fun r =>
       if r.id == todo.id && isActive r then t else r) })

/-- repository.Delete via db.Delete on a soft-delete model: stamps
deleted_at on the matching active rows; when zero rows are affected it
returns ErrNotFound instead of success. -/
def gormDelete (id : Nat) (db : DB) : Option GoErr × DB :=
  if db.activeRows.any (fun r => r.id == id) then
    (none,
     { db with rows := db.rows.map (fun r =>
         if r.id == id && isActive r then { r with deletedAt := some db.now } else r) })
  else (some .notFound, db)

/-- The GORM-backed repository instance produced by NewTodoRepository,
with the database state made explicit. -/
def todoRepository : TodoRepository DB :=
  { create := gormCreate
    getAll := gormGetAll
    getByID := gormGetByID
    existsByTitle := gormExistsByTitle
    update := gormUpdate
    delete := gormDelete }

namespace todoService

variable {σ : Type}

/-- todoService.CreateTodo from service.go: reject an empty title with
ErrTitleRequired; probe ExistsByTitle, wrapping a probe error with the
failed-to-check-title-uniqueness message and rejecting an existing title
with ErrTitleExists; otherwise build a fresh Todo with completed false and
persist it via the store, returning what the store persisted. -/
def createTodo (repo : TodoRepository σ) (req : CreateTodoRequest) (s : σ) :
    Except GoErr Todo × σ :=
  if req.title = "" then (.error .titleRequired, s)
  else
    match repo.existsByTitle req.title s with
    | (.error e, s1) => (.error (.wrap "failed to check title uniqueness" e), s1)
    | (.ok true, s1) => (.error .titleExists, s1)
    | (.ok false, s1) =>
        repo.create
          { id := 0, title := req.title, description := req.description,
            completed := false, createdAt := 0, updatedAt := 0, deletedAt := none }
          s1

/-- todoService.GetAllTodos: passthrough to the store. -/
def getAllTodos (repo : TodoRepository σ) (s : σ) :
    Except GoErr (List Todo) × σ :=
  repo.getAll s

/-- todoService.GetTodoByID: passthrough to the store. -/
def getTodoByID (repo : TodoRepository σ) (id : Nat) (s : σ) :
    Except GoErr Todo × σ :=
  repo.getByID id s

/-- todoService.UpdateTodo from service.go: load the existing todo,
compute the change set (title applied when non-empty and different, with a
uniqueness probe; description applied when non-empty and different;
completed applied when present and different), short-circuit with the
loaded todo when nothing changed, otherwise persist via store Update. -/
def updateTodo (repo : TodoRepository σ) (id : Nat) (req : UpdateTodoRequest)
    (s : σ) : Except GoErr Todo × σ :=
  match repo.getByID id s with
  | (.error e, s1) => (.error e, s1)
  | (.ok todo0, s1) =>
      let titleStep : Except GoErr (Todo × Bool) × σ :=
        if req.title ≠ "" ∧ req.title ≠ todo0.title then
          match repo.existsByTitle req.title s1 with
          | (.error e, s2) =>
              (.error (.wrap "failed to check title uniqueness" e), s2)
          | (.ok true, s2) => (.error .titleExists, s2)
          | (.ok false, s2) => (.ok ({ todo0 with title := req.title }, true), s2)
        else (.ok (todo0, false), s1)
      match titleStep with
      | (.error e, s2) => (.error e, s2)
      | (.ok (t1, ch1), s2) =>
          let step2 : Todo × Bool :=
            if req.description ≠ "" ∧ req.description ≠ t1.description then
              ({ t1 with description := req.description }, true)
            else (t1, ch1)
          let t2 := step2.1
          let step3 : Todo × Bool :=
            match req.completed with
            | some c =>
                if c ≠ t2.completed then ({ t2 with completed := c }, true)
                else (t2, step2.2)
            | none => (t2, step2.2)
          if step3.2 = false then (.ok step3.1, s2)
          else repo.update step3.1 s2

/-- todoService.DeleteTodo: passthrough to the store. -/
def deleteTodo (repo : TodoRepository σ) (id : Nat) (s : σ) :
    Option GoErr × σ :=
  repo.delete id s

end todoService

/-- TodoService interface from service.go, as seen by the handlers, over
an explicit state. -/
structure TodoService (σ : Type) where
  createTodo : CreateTodoRequest → σ → Except GoErr Todo × σ
  getAllTodos : σ → Except GoErr (List Todo) × σ
  getTodoByID : Nat → σ → Except GoErr Todo × σ
  updateTodo : Nat → UpdateTodoRequest → σ → Except GoErr Todo × σ
  deleteTodo : Nat → σ → Option GoErr × σ

/-- The service instance produced by NewTodoService over a repository. -/
def newTodoService {σ : Type} (repo : TodoRepository σ) : TodoService σ :=
  { createTodo := todoService.createTodo repo
    getAllTodos := todoService.getAllTodos repo
    getTodoByID := todoService.getTodoByID repo
    updateTodo := todoService.updateTodo repo
    deleteTodo := todoService.deleteTodo repo }

/-- Body of a JSON response written by the handlers: a single todo, an
array, an errorResponse with an error field, or a messageResponse. -/
inductive RespBody where
  | todoBody : Todo → RespBody
  | listBody : List Todo → RespBody
  | errBody : String → RespBody
  | msgBody : String → RespBody
deriving Repr, DecidableEq

/-- An HTTP response as produced by a single c.JSON call. -/
structure HttpResp where
  status : Nat
  body : RespBody
deriving Repr, DecidableEq

/-- strconv.ParseUint with base 10 and bit size 32, as used for the path
id parameter: digits only (no sign), non-empty, and within 32 bits;
anything else (including range overflow) is an error, here none. -/
def parseUint32 (s : String) : Option Nat :=
  if s.data = [] then none
  else if s.data.all Char.isDigit then
    let v := s.data.foldl (fun acc c => acc * 10 + (c.toNat - 48)) 0
    if v < 2 ^ 32 then some v else none
  else none

/-- Fields of a well-formed JSON create body after decoding: each field is
present with a string value or absent.  gin ShouldBindJSON with the
required tag on Title rejects a missing title and an empty title (both
decode to the string zero value, on which the required validator fails). -/
structure CreateBody where
  title : Option String
  description : Option String
deriving Repr, DecidableEq

/-- The binding step of the create handler: ShouldBindJSON into
CreateTodoRequest.  A missing or empty title fails the required binding
with a validation error text; otherwise the request is populated, an
absent description decoding to the empty string. -/
def bindCreateTodoRequest (b : CreateBody) : Except String CreateTodoRequest :=
  match b.title with
  | none =>
      .error "Key: CreateTodoRequest.Title Error:Field validation for Title failed on the required tag"
  | some t =>
      if t = "" then
        .error "Key: CreateTodoRequest.Title Error:Field validation for Title failed on the required tag"
      else .ok { title := t, description := b.description.getD "" }

namespace TodoHandler

variable {σ : Type}

/-- TodoHandler.CreateTodo from handlers.go: a binding failure answers 400
with the decode error text; any service error answers 500 with the error
text; success answers 201 with the created todo. -/
def createTodo (svc : TodoService σ) (bindResult : Except String CreateTodoRequest)
    (s : σ) : HttpResp × σ :=
  match bindResult with
  | .error e => (⟨400, .errBody e⟩, s)
  | .ok req =>
      match svc.createTodo req s with
      | (.error e, s1) => (⟨500, .errBody e.message⟩, s1)
      | (.ok todo, s1) => (⟨201, .todoBody todo⟩, s1)

/-- TodoHandler.GetAllTodos from handlers.go: a service error answers 500;
success answers 200 with the list. -/
def getAllTodos (svc : TodoService σ) (s : σ) : HttpResp × σ :=
  match svc.getAllTodos s with
  | (.error e, s1) => (⟨500, .errBody e.message⟩, s1)
  | (.ok todos, s1) => (⟨200, .listBody todos⟩, s1)

/-- TodoHandler.GetTodoByID from handlers.go: an unparsable id answers 400
with Invalid ID; any service error answers 404 with Todo not found;
success answers 200 with the todo. -/
def getTodoByID (svc : TodoService σ) (idParam : String) (s : σ) :
    HttpResp × σ :=
  match parseUint32 idParam with
  | none => (⟨400, .errBody "Invalid ID"⟩, s)
  | some id =>
      match svc.getTodoByID id s with
      | (.error _, s1) => (⟨404, .errBody "Todo not found"⟩, s1)
      | (.ok todo, s1) => (⟨200, .todoBody todo⟩, s1)

/-- TodoHandler.UpdateTodo from handlers.go: an unparsable id answers 400;
a binding failure answers 400 with the decode error text; any service
error answers 400 with the error text; success answers 200. -/
def updateTodo (svc : TodoService σ) (idParam : String)
    (bindResult : Except String UpdateTodoRequest) (s : σ) : HttpResp × σ :=
  match parseUint32 idParam with
  | none => (⟨400, .errBody "Invalid ID"⟩, s)
  | some id =>
      match bindResult with
      | .error e => (⟨400, .errBody e⟩, s)
      | .ok req =>
          match svc.updateTodo id req s with
          | (.error e, s1) => (⟨400, .errBody e.message⟩, s1)
          | (.ok todo, s1) => (⟨200, .todoBody todo⟩, s1)

/-- TodoHandler.DeleteTodo from handlers.go: an unparsable id answers 400;
any service error answers 500 with the error text; success answers 200
with the fixed confirmation message. -/
def deleteTodo (svc : TodoService σ) (idParam : String) (s : σ) :
    HttpResp × σ :=
  match parseUint32 idParam with
  | none => (⟨400, .errBody "Invalid ID"⟩, s)
  | some id =>
      match svc.deleteTodo id s with
      | (some e, s1) => (⟨500, .errBody e.message⟩, s1)
      | (none, s1) => (⟨200, .msgBody "Todo deleted successfully"⟩, s1)

end TodoHandler

/-- A service stub that fails every operation with a fixed error, in the
mould of the mock service of the handler unit tests. -/
def failingService (e : GoErr) : TodoService Unit :=
  { createTodo := fun _ s => (.error e, s)
    getAllTodos := fun s => (.error e, s)
    getTodoByID := fun _ s => (.error e, s)
    updateTodo := fun _ _ s => (.error e, s)
    deleteTodo := fun _ s => (some e, s) }

/-- C1: for every create request, an empty title fails with TitleRequired;
otherwise a positive uniqueness probe fails with TitleExists; a probe
error is wrapped with the uniqueness-check message and is distinct from
TitleExists; and a negative probe persists, via the store, a new todo
carrying the request title and description with completed false, returning
exactly what the store returns. -/
theorem c1_createTodo_spec {σ : Type} (repo : TodoRepository σ)
    (req : CreateTodoRequest) (s : σ) :
    (req.title = "" →
      todoService.createTodo repo req s = (.error .titleRequired, s))
    ∧ (∀ s1, req.title ≠ "" →
        repo.existsByTitle req.title s = (.ok true, s1) →
        todoService.createTodo repo req s = (.error .titleExists, s1))
    ∧ (∀ e s1, req.title ≠ "" →
        repo.existsByTitle req.title s = (.error e, s1) →
        todoService.createTodo repo req s
            = (.error (.wrap "failed to check title uniqueness" e), s1)
          ∧ GoErr.wrap "failed to check title uniqueness" e ≠ .titleExists)
    ∧ (∀ s1, req.title ≠ "" →
        repo.existsByTitle req.title s = (.ok false, s1) →
        todoService.createTodo repo req s
          = repo.create
              { id := 0, title := req.title, description := req.description,
                completed := false, createdAt := 0, updatedAt := 0,
                deletedAt := none } s1) := by
  refine ⟨?_, ?_, ?_, ?_⟩ <;> intros <;>
    simp_all [todoService.createTodo]

theorem c1_createTodo_spec_witness :
    todoService.createTodo todoRepository ⟨"A", "d"⟩ ⟨[], 1, 5⟩
        = gormCreate
            { id := 0, title := "A", description := "d", completed := false,
              createdAt := 0, updatedAt := 0, deletedAt := none } ⟨[], 1, 5⟩
      ∧ todoService.createTodo todoRepository ⟨"", "d"⟩ ⟨[], 1, 5⟩
        = (.error .titleRequired, ⟨[], 1, 5⟩) := by
  exact ⟨(c1_createTodo_spec todoRepository ⟨"A", "d"⟩ ⟨[], 1, 5⟩).2.2.2
           ⟨[], 1, 5⟩ (by decide) rfl,
         (c1_createTodo_spec todoRepository ⟨"", "d"⟩ ⟨[], 1, 5⟩).1 rfl⟩

/-- C2: a todo whose deleted_at is set is excluded from every read: GetAll
returns only rows with an unset deletion marker, GetByID never returns a
row with a set deletion marker, and when every row carrying the requested
id is soft-deleted GetByID signals NotFound. -/
theorem c2_soft_deleted_excluded (db : DB) (id : Nat) :
    (∀ ts, (gormGetAll db).1 = .ok ts → ∀ t ∈ ts, t.deletedAt = none)
    ∧ (∀ t, (gormGetByID id db).1 = .ok t → t.deletedAt = none)
    ∧ ((∀ t ∈ db.rows, t.id = id → t.deletedAt ≠ none) →
        (gormGetByID id db).1 = .error .notFound) := by
  refine ⟨?_, ?_, ?_⟩
  · intro ts hts t ht
    simp only [gormGetAll] at hts
    cases hts
    have := List.of_mem_filter ht
    simpa [isActive, Option.isNone_iff_eq_none] using this
  · intro t ht
    simp only [gormGetByID] at ht
    cases hfind : db.activeRows.find? (fun r => r.id == id) with
    | none => rw [hfind] at ht; cases ht
    | some u =>
        rw [hfind] at ht
        cases ht
        have hmem : t ∈ db.activeRows := List.mem_of_find?_eq_some hfind
        have := List.of_mem_filter hmem
        simpa [isActive, Option.isNone_iff_eq_none] using this
  · intro h
    have hfind : db.activeRows.find? (fun r => r.id == id) = none := by
      apply List.find?_eq_none.mpr
      intro t ht
      have hrow : t ∈ db.rows := List.mem_of_mem_filter ht
      have hact : isActive t := List.of_mem_filter ht
      simp only [beq_iff_eq]
      intro hid
      exact (h t hrow hid) (by simpa [isActive, Option.isNone_iff_eq_none] using hact)
    simp [gormGetByID, hfind]

theorem c2_soft_deleted_excluded_witness :
    (gormGetByID 1
      ⟨[{ id := 1, title := "A", description := "", completed := false,
          createdAt := 0, updatedAt := 0, deletedAt := some 4 }], 2, 5⟩).1
      = .error .notFound := by
  exact (c2_soft_deleted_excluded
    ⟨[{ id := 1, title := "A", description := "", completed := false,
        createdAt := 0, updatedAt := 0, deletedAt := some 4 }], 2, 5⟩ 1).2.2
    (by decide)

/-- C4: evaluation of the create handler wired to the real service and
store at a state holding an active todo titled A.  The service returns
ErrTitleExists and the handler answers 500 with the error text, not the
409 promised for TitleExists: every service error of CreateTodo falls into
the single 500 branch of handlers.go. -/
theorem c4_create_handler_conflict_gives_500 :
    TodoHandler.createTodo (newTodoService todoRepository)
        (.ok { title := "A", description := "dup" })
        ⟨[{ id := 1, title := "A", description := "first", completed := false,
            createdAt := 0, updatedAt := 0, deletedAt := none }], 2, 3⟩
      = (⟨500, .errBody "todo with this title already exists"⟩,
         ⟨[{ id := 1, title := "A", description := "first", completed := false,
             createdAt := 0, updatedAt := 0, deletedAt := none }], 2, 3⟩)
    ∧ (500 : Nat) ≠ 409 ∧ (500 : Nat) ≠ 400 := by
  refine ⟨?_, by decide, by decide⟩
  decide

/-- C5: evaluation of the update handler wired to the real service and
store at an empty database.  The service returns ErrNotFound and the
handler answers 400 with the error text, not the 404 promised for
NotFound: every service error of UpdateTodo falls into the single 400
branch of handlers.go. -/
theorem c5_update_handler_notfound_gives_400 :
    TodoHandler.updateTodo (newTodoService todoRepository) "1"
        (.ok { title := "", description := "", completed := none })
        ⟨[], 1, 0⟩
      = (⟨400, .errBody "todo not found"⟩, ⟨[], 1, 0⟩)
    ∧ (400 : Nat) ≠ 404 := by
  refine ⟨?_, by decide⟩
  decide

/-- C6 counterexample: the get-by-id handler answers 404 even when the
service fails with an error that is not NotFound, where the claim promises
500 for such errors. -/
theorem c6_counterexample_other_error_gives_404 :
    TodoHandler.getTodoByID (failingService (.other "disk failure")) "1" ()
      = (⟨404, .errBody "Todo not found"⟩, ())
    ∧ (404 : Nat) ≠ 500 := by
  refine ⟨?_, by decide⟩
  decide

/-- C6 amended: the get-by-id handler parses the path id as a non-negative
integer answering 400 on parse failure, answers 404 with the fixed text on
every service error (NotFound or any other), and answers 200 with the todo
on success. -/
theorem c6_get_handler_mapping {σ : Type} (svc : TodoService σ)
    (idParam : String) (s : σ) :
    (parseUint32 idParam = none →
      TodoHandler.getTodoByID svc idParam s
        = (⟨400, .errBody "Invalid ID"⟩, s))
    ∧ (∀ id, parseUint32 idParam = some id →
        (∀ e s1, svc.getTodoByID id s = (.error e, s1) →
          TodoHandler.getTodoByID svc idParam s
            = (⟨404, .errBody "Todo not found"⟩, s1))
        ∧ (∀ t s1, svc.getTodoByID id s = (.ok t, s1) →
          TodoHandler.getTodoByID svc idParam s
            = (⟨200, .todoBody t⟩, s1))) := by
  refine ⟨fun h => by simp [TodoHandler.getTodoByID, h], ?_⟩
  intro id hid
  refine ⟨fun e s1 h => ?_, fun t s1 h => ?_⟩ <;>
    simp [TodoHandler.getTodoByID, hid, h]

theorem c6_get_handler_mapping_witness :
    TodoHandler.getTodoByID (failingService .notFound) "7" ()
      = (⟨404, .errBody "Todo not found"⟩, ())
    ∧ TodoHandler.getTodoByID (failingService .notFound) "x" ()
      = (⟨400, .errBody "Invalid ID"⟩, ()) := by
  exact ⟨((c6_get_handler_mapping (failingService .notFound) "7" ()).2 7
            (by decide)).1 .notFound () rfl,
         (c6_get_handler_mapping (failingService .notFound) "x" ()).1
           (by decide)⟩

/-- C7: the repository treats zero affected rows as absence, so deleting a
never-existing id and the second delete of an existing id both yield
NotFound; and the delete handler wired to the real service answers 500
with the error text on that NotFound, not the promised 404: every service
error of DeleteTodo falls into the single 500 branch of handlers.go. -/
theorem c7_delete_notfound_and_handler_500 :
    (gormDelete 1 ⟨[], 1, 0⟩).1 = some .notFound
    ∧ (gormDelete 1
        ⟨[{ id := 1, title := "A", description := "", completed := false,
            createdAt := 0, updatedAt := 0, deletedAt := none }], 2, 3⟩).1
        = none
    ∧ (gormDelete 1
        (gormDelete 1
          ⟨[{ id := 1, title := "A", description := "", completed := false,
              createdAt := 0, updatedAt := 0, deletedAt := none }], 2, 3⟩).2).1
        = some .notFound
    ∧ TodoHandler.deleteTodo (newTodoService todoRepository) "1" ⟨[], 1, 0⟩
        = (⟨500, .errBody "todo not found"⟩, ⟨[], 1, 0⟩)
    ∧ (500 : Nat) ≠ 404 := by
  refine ⟨by decide, by decide, by decide, ?_, by decide⟩
  decide

/-- C10: the required binding tag on the create title means any body that
binds successfully carries a non-empty title, so the TitleRequired branch
of the service is unreachable through the create handler: with the real
service and store, a successfully bound request never produces the
TitleRequired error and the handler never answers 400 after a successful
bind. -/
theorem c10_titleRequired_unreachable (b : CreateBody)
    (req : CreateTodoRequest) (hbind : bindCreateTodoRequest b = .ok req) :
    req.title ≠ ""
    ∧ (∀ db : DB,
        (todoService.createTodo todoRepository req db).1
          ≠ .error .titleRequired
        ∧ (TodoHandler.createTodo (newTodoService todoRepository)
            (bindCreateTodoRequest b) db).1.status ≠ 400) := by
  have htitle : req.title ≠ "" := by
    rcases b with ⟨bt, bd⟩
    cases bt with
    | none => simp [bindCreateTodoRequest] at hbind
    | some t =>
        by_cases h : t = ""
        · simp [bindCreateTodoRequest, h] at hbind
        · simp only [bindCreateTodoRequest, if_neg h, Except.ok.injEq] at hbind
          subst hbind
          simpa using h
  refine ⟨htitle, fun db => ⟨?_, ?_⟩⟩
  · simp only [todoService.createTodo, todoRepository, gormExistsByTitle,
      if_neg htitle]
    cases hprobe : db.activeRows.any
        (fun r => r.title == req.title) with
    | true => simp
    | false =>
        simp only [gormCreate]
        split <;> simp
  · rw [hbind]
    simp only [TodoHandler.createTodo, newTodoService]
    cases hsvc : todoService.createTodo todoRepository req db with
    | mk r s1 =>
        cases r <;> simp

theorem c10_titleRequired_unreachable_witness :
    ({ title := "A", description := "" } : CreateTodoRequest).title ≠ ""
    ∧ (todoService.createTodo todoRepository
        { title := "A", description := "" } ⟨[], 1, 0⟩).1
        ≠ .error .titleRequired := by
  have h := c10_titleRequired_unreachable ⟨some "A", none⟩
    { title := "A", description := "" } rfl
  exact ⟨h.1, (h.2 ⟨[], 1, 0⟩).1⟩

/-- C3: with the real service and store, creating a todo with title t
fails with TitleExists while an active row holds t; soft-deleting that
row succeeds, and afterwards creating a todo with title t succeeds,
returning a fresh active row carrying the requested fields: titles are
unique among active todos only and become reusable after deletion. -/
theorem c3_title_reusable_after_delete (db : DB) (u : Todo) (t d : String)
    (hu : u ∈ db.rows) (hua : u.deletedAt = none) (hut : u.title = t)
    (ht : t ≠ "")
    (honly : ∀ r ∈ db.rows, r.deletedAt = none → r.title = t → r.id = u.id) :
    todoService.createTodo todoRepository ⟨t, d⟩ db
      = (.error .titleExists, db)
    ∧ (gormDelete u.id db).1 = none
    ∧ (todoService.createTodo todoRepository ⟨t, d⟩ (gormDelete u.id db).2).1
        = .ok { id := ((gormDelete u.id db).2).nextId, title := t,
                description := d, completed := false,
                createdAt := ((gormDelete u.id db).2).now,
                updatedAt := ((gormDelete u.id db).2).now,
                deletedAt := none } := by
  have humem : u ∈ db.activeRows :=
    List.mem_filter.mpr ⟨hu, by simp [isActive, hua]⟩
  have key1 : db.activeRows.any (fun r => r.title == t) = true :=
    List.any_eq_true.mpr ⟨u, humem, by simp [hut]⟩
  have key2 : db.activeRows.any (fun r => r.id == u.id) = true :=
    List.any_eq_true.mpr ⟨u, humem, by simp⟩
  have key3 : ((gormDelete u.id db).2).activeRows.any
      (fun r => r.title == t) = false := by
    simp only [gormDelete, if_pos key2]
    apply List.any_eq_false.mpr
    intro r' hr'
    obtain ⟨hmap, hact⟩ := List.mem_filter.mp hr'
    obtain ⟨r, hr, hfr⟩ := List.mem_map.mp hmap
    by_cases hc : (r.id == u.id && isActive r) = true
    · rw [if_pos hc] at hfr
      rw [← hfr] at hact
      simp [isActive] at hact
    · rw [← hfr] at hact ⊢
      rw [if_neg hc] at hact ⊢
      simp only [beq_iff_eq]
      intro hrt
      apply hc
      have hrdel : r.deletedAt = none := by
        simpa [isActive, Option.isNone_iff_eq_none] using hact
      have := honly r hr hrdel hrt
      simp [this, isActive, hrdel]
  refine ⟨?_, by simp [gormDelete, key2], ?_⟩
  · simp [todoService.createTodo, todoRepository, gormExistsByTitle, ht, key1]
  · simp [todoService.createTodo, todoRepository, gormExistsByTitle, ht, key3,
      gormCreate]

theorem c3_title_reusable_after_delete_witness :
    todoService.createTodo todoRepository ⟨"A", "dup"⟩
        ⟨[{ id := 1, title := "A", description := "first", completed := false,
            createdAt := 0, updatedAt := 0, deletedAt := none }], 2, 7⟩
      = (.error .titleExists,
         ⟨[{ id := 1, title := "A", description := "first", completed := false,
             createdAt := 0, updatedAt := 0, deletedAt := none }], 2, 7⟩)
    ∧ (gormDelete 1
        ⟨[{ id := 1, title := "A", description := "first", completed := false,
            createdAt := 0, updatedAt := 0, deletedAt := none }], 2, 7⟩).1
        = none
    ∧ (todoService.createTodo todoRepository ⟨"A", "dup"⟩
        (gormDelete 1
          ⟨[{ id := 1, title := "A", description := "first",
              completed := false, createdAt := 0, updatedAt := 0,
              deletedAt := none }], 2, 7⟩).2).1
        = .ok { id := 2, title := "A", description := "dup",
                completed := false, createdAt := 7, updatedAt := 7,
                deletedAt := none } := by
  have h := c3_title_reusable_after_delete
    ⟨[{ id := 1, title := "A", description := "first", completed := false,
        createdAt := 0, updatedAt := 0, deletedAt := none }], 2, 7⟩
    { id := 1, title := "A", description := "first", completed := false,
      createdAt := 0, updatedAt := 0, deletedAt := none }
    "A" "dup" (by simp) rfl rfl (by decide) (by decide)
  exact ⟨h.1, h.2.1, h.2.2⟩

/-- C8: with the real service and store, an update request in which no
field actually changes value (title empty or equal, description empty or
equal, completed absent or equal to the current value, including an
explicit false over false) returns the loaded todo unchanged, leaves the
database untouched, and never invokes the store update, so updated_at is
not bumped; conversely completing a todo that was not completed goes
through the store update and stamps updated_at with the current time. -/
theorem c8_update_no_change_short_circuits (db : DB) (id : Nat)
    (req : UpdateTodoRequest) (todo : Todo)
    (hget : gormGetByID id db = (.ok todo, db)) :
    ((req.title = "" ∨ req.title = todo.title) →
     (req.description = "" ∨ req.description = todo.description) →
     (req.completed = none ∨ req.completed = some todo.completed) →
       todoService.updateTodo todoRepository id req db = (.ok todo, db)
       ∧ ∀ f g,
           todoService.updateTodo { todoRepository with update := f } id req db
             = todoService.updateTodo { todoRepository with update := g } id req db)
    ∧ (req.title = "" → req.description = "" → req.completed = some true →
       todo.completed = false →
         todoService.updateTodo todoRepository id req db
           = (.ok { todo with completed := true, updatedAt := db.now },
              { db with rows := db.rows.map (fun r =>
                  if r.id == todo.id && isActive r then
                    { todo with completed := true, updatedAt := db.now }
                  else r) })
         ∧ ({ todo with completed := true, updatedAt := db.now } : Todo).updatedAt
             = db.now) := by
  constructor
  · intro hT hD hC
    constructor
    · rcases hT with hT | hT <;> rcases hD with hD | hD <;>
        rcases hC with hC | hC <;>
        simp [todoService.updateTodo, todoRepository, hget, hT, hD, hC]
    · intro f g
      rcases hT with hT | hT <;> rcases hD with hD | hD <;>
        rcases hC with hC | hC <;>
        simp [todoService.updateTodo, todoRepository, hget, hT, hD, hC]
  · intro h1 h2 h3 h4
    refine ⟨?_, rfl⟩
    simp [todoService.updateTodo, todoRepository, hget, h1, h2, h3, h4,
      gormUpdate]

theorem c8_update_no_change_short_circuits_witness :
    todoService.updateTodo todoRepository 1
        { title := "", description := "", completed := none }
        ⟨[⟨1, "T", "d", false, 0, 0, none⟩], 2, 9⟩
      = (.ok ⟨1, "T", "d", false, 0, 0, none⟩,
         ⟨[⟨1, "T", "d", false, 0, 0, none⟩], 2, 9⟩)
    ∧ (todoService.updateTodo todoRepository 1
        { title := "", description := "", completed := some true }
        ⟨[⟨1, "T", "d", false, 0, 0, none⟩], 2, 9⟩).1
      = .ok ⟨1, "T", "d", true, 0, 9, none⟩ := by
  have hA := (c8_update_no_change_short_circuits
    ⟨[⟨1, "T", "d", false, 0, 0, none⟩], 2, 9⟩ 1
    { title := "", description := "", completed := none }
    ⟨1, "T", "d", false, 0, 0, none⟩ rfl).1
    (Or.inl rfl) (Or.inl rfl) (Or.inl rfl)
  have hB := (c8_update_no_change_short_circuits
    ⟨[⟨1, "T", "d", false, 0, 0, none⟩], 2, 9⟩ 1
    { title := "", description := "", completed := some true }
    ⟨1, "T", "d", false, 0, 0, none⟩ rfl).2 rfl rfl rfl rfl
  refine ⟨hA.1, ?_⟩
  rw [hB.1]

/-- Characterisation of a successful UpdateTodo against the real store:
the returned todo carries the requested title exactly when the title was
provided (non-empty) and different, and carries the requested completed
value whenever one was present, the current one otherwise. -/
lemma updateTodo_ok_fields (db : DB) (id : Nat) (req : UpdateTodoRequest)
    (todo : Todo) (hget : gormGetByID id db = (.ok todo, db)) :
    ∀ t1 db1, todoService.updateTodo todoRepository id req db = (.ok t1, db1) →
      t1.title
          = (if req.title ≠ "" ∧ req.title ≠ todo.title then req.title
             else todo.title)
        ∧ t1.completed = req.completed.getD todo.completed := by
  intro t1 db1 h
  by_cases h1 : req.title ≠ "" ∧ req.title ≠ todo.title
  · cases hb : db.activeRows.any (fun r => r.title == req.title) with
    | true =>
        simp [todoService.updateTodo, todoRepository, hget, h1,
          gormExistsByTitle, hb] at h
    | false =>
        by_cases h2 : req.description ≠ "" ∧ req.description ≠ todo.description <;>
          rcases hc : req.completed with _ | c <;>
          try by_cases h3 : c ≠ todo.completed
        all_goals
          simp_all [todoService.updateTodo, todoRepository, gormExistsByTitle,
            gormUpdate]
        all_goals try (obtain ⟨ht, hd⟩ := h; subst ht)
        all_goals by_cases hA : req.title = "" <;> simp_all
  · by_cases h2 : req.description ≠ "" ∧ req.description ≠ todo.description <;>
      rcases hc : req.completed with _ | c <;>
      try by_cases h3 : c ≠ todo.completed
    all_goals
      simp_all [todoService.updateTodo, todoRepository, gormUpdate]
    all_goals try (obtain ⟨ht, hd⟩ := h; subst ht)
    all_goals by_cases hA : req.title = "" <;> simp_all

/-- C9: with the real service and store, update field provision works
exactly as follows: an empty or unchanged title is silently treated as not
provided (the uniqueness probe is not consulted and the stored title is
kept, with no error); a provided changed title re-runs the probe and
fails with TitleExists when another active todo holds it; a request
carrying the todo own current title never triggers TitleExists even
though the global probe over active rows would report that title as
taken; completed is applied only when explicitly present, the stored
value being kept when the field is absent or carries the current value,
and the requested value being stored when present. -/
theorem c9_update_field_provision (db : DB) (id : Nat)
    (req : UpdateTodoRequest) (todo : Todo)
    (hget : gormGetByID id db = (.ok todo, db)) :
    ((req.title = "" ∨ req.title = todo.title) →
      (∀ f, todoService.updateTodo { todoRepository with existsByTitle := f }
              id req db
            = todoService.updateTodo todoRepository id req db)
      ∧ (∀ t1 db1,
          todoService.updateTodo todoRepository id req db = (.ok t1, db1) →
            t1.title = todo.title))
    ∧ (req.title ≠ "" → req.title ≠ todo.title →
        db.activeRows.any (fun r => r.title == req.title) = true →
        todoService.updateTodo todoRepository id req db
          = (.error .titleExists, db))
    ∧ (req.title = todo.title →
        db.activeRows.any (fun r => r.title == todo.title) = true
        ∧ (todoService.updateTodo todoRepository id req db).1
            ≠ .error .titleExists)
    ∧ ((req.completed = none ∨ req.completed = some todo.completed) →
        ∀ t1 db1,
          todoService.updateTodo todoRepository id req db = (.ok t1, db1) →
            t1.completed = todo.completed)
    ∧ (∀ c, req.completed = some c →
        ∀ t1 db1,
          todoService.updateTodo todoRepository id req db = (.ok t1, db1) →
            t1.completed = c)
    ∧ (req.title ≠ "" → req.title ≠ todo.title →
        db.activeRows.any (fun r => r.title == req.title) = false →
        ∀ t1 db1,
          todoService.updateTodo todoRepository id req db = (.ok t1, db1) →
            t1.title = req.title) := by
  have hmem : todo ∈ db.activeRows := by
    rcases hf : db.activeRows.find? (fun r => r.id == id) with _ | u
    · simp [gormGetByID, hf] at hget
    · have hu := List.mem_of_find?_eq_some hf
      have heq : u = todo := by
        simpa [gormGetByID, hf] using hget
      exact heq ▸ hu
  refine ⟨?_, ?_, ?_, ?_, ?_, ?_⟩
  · intro hT
    have hcond : ¬(req.title ≠ "" ∧ req.title ≠ todo.title) := by
      rcases hT with hT | hT
      · exact fun hcc => hcc.1 hT
      · exact fun hcc => hcc.2 hT
    constructor
    · intro f
      have hgf : ({ todoRepository with existsByTitle := f } :
          TodoRepository DB).getByID id db = (.ok todo, db) := hget
      have hg2 : todoRepository.getByID id db = (.ok todo, db) := hget
      simp only [todoService.updateTodo, hgf, hg2]
      rw [if_neg hcond, if_neg hcond]
    · intro t1 db1 hok
      have hfld := updateTodo_ok_fields db id req todo hget t1 db1 hok
      rcases hT with hT | hT <;> simp [hT] at hfld <;> exact hfld.1
  · intro h1 h2 hany
    simp [todoService.updateTodo, todoRepository, hget, h1, h2,
      gormExistsByTitle, hany]
  · intro hT
    refine ⟨List.any_eq_true.mpr ⟨todo, hmem, by simp⟩, ?_⟩
    have hcond : ¬(req.title ≠ "" ∧ req.title ≠ todo.title) := by
      exact fun hcc => hcc.2 hT
    have hg2 : todoRepository.getByID id db = (.ok todo, db) := hget
    simp only [todoService.updateTodo, hg2]
    rw [if_neg hcond]
    split
    · rename_i heq
      simp at heq
    · rename_i heq
      simp only [Prod.mk.injEq, Except.ok.injEq] at heq
      obtain ⟨⟨rfl, rfl⟩, rfl⟩ := heq
      split <;> simp [todoRepository, gormUpdate] <;>
        try (split <;> simp)
  · intro hC t1 db1 hok
    have hfld := updateTodo_ok_fields db id req todo hget t1 db1 hok
    rcases hC with hC | hC <;> simp [hC] at hfld <;> exact hfld.2
  · intro c hc t1 db1 hok
    have hfld := updateTodo_ok_fields db id req todo hget t1 db1 hok
    simp [hc] at hfld
    exact hfld.2
  · intro h1 h2 hany t1 db1 hok
    have hfld := updateTodo_ok_fields db id req todo hget t1 db1 hok
    simp [h1, h2] at hfld
    exact hfld.1

theorem c9_update_field_provision_witness :
    todoService.updateTodo todoRepository 1
        { title := "B", description := "", completed := none }
        ⟨[⟨1, "A", "d", false, 0, 0, none⟩,
          ⟨2, "B", "e", false, 0, 0, none⟩], 3, 5⟩
      = (.error .titleExists,
         ⟨[⟨1, "A", "d", false, 0, 0, none⟩,
           ⟨2, "B", "e", false, 0, 0, none⟩], 3, 5⟩)
    ∧ (todoService.updateTodo todoRepository 1
        { title := "A", description := "", completed := none }
        ⟨[⟨1, "A", "d", false, 0, 0, none⟩,
          ⟨2, "B", "e", false, 0, 0, none⟩], 3, 5⟩).1
      ≠ .error .titleExists := by
  refine ⟨?_, ?_⟩
  · exact (c9_update_field_provision
      ⟨[⟨1, "A", "d", false, 0, 0, none⟩,
        ⟨2, "B", "e", false, 0, 0, none⟩], 3, 5⟩ 1
      { title := "B", description := "", completed := none }
      ⟨1, "A", "d", false, 0, 0, none⟩ rfl).2.1
      (by decide) (by decide) (by decide)
  · exact ((c9_update_field_provision
      ⟨[⟨1, "A", "d", false, 0, 0, none⟩,
        ⟨2, "B", "e", false, 0, 0, none⟩], 3, 5⟩ 1
      { title := "A", description := "", completed := none }
      ⟨1, "A", "d", false, 0, 0, none⟩ rfl).2.2.1 rfl).2
